import Mathlib

/-!
Verification development for the PromoTracker pipeline.

We shallowly embed the Python sources of the repository:
  * `src/lambdas/scraper/handler.py`   (Fetcher)
  * `src/lambdas/detector/handler.py`  (Classifier)
  * `src/lambdas/predictor/handler.py` (Forecaster)
  * `src/layers/shared_code/python/shared/s3_helper.py`
  * `src/layers/shared_code/python/shared/dynamo_helper.py`
  * `src/layers/shared_code/python/shared/constants.py`

Python dictionaries/JSON values are embedded as `PyVal`; exceptions as
`Except PyError`; external collaborators (HTTP, robots.txt resolution,
Firecrawl, OpenAI, S3, DynamoDB) are environment parameters recording the
outcome each call would produce.  Monetary and confidence values are exact
rationals (the source stores them as `Decimal`, e.g. `Decimal(str(0.3))`,
which is exact decimal arithmetic).
-/

/-- Embedded Python values (the JSON-like fragment the handlers manipulate). -/
inductive PyVal where
  | none : PyVal
  | bool (b : Bool) : PyVal
  | int (n : Int) : PyVal
  | rat (q : Rat) : PyVal
  | str (s : String) : PyVal
  | list (xs : List PyVal) : PyVal
  | dict (entries : List (String × PyVal)) : PyVal

/-- Embedded Python exceptions, as raised by the handlers. -/
inductive PyError where
  | attributeError (msg : String) : PyError
  | valueError (msg : String) : PyError
  | typeError (msg : String) : PyError
  | unboundLocalError (name : String) : PyError
  | exception (msg : String) : PyError
deriving DecidableEq, Repr

/-- Python `str(e)` on an embedded exception. -/
def PyError.text : PyError → String
  | PyError.attributeError m => m
  | PyError.valueError m => m
  | PyError.typeError m => m
  | PyError.unboundLocalError n => "cannot access local variable " ++ n
  | PyError.exception m => m

/-- Python `d.get(key, default)`: defined on dictionaries, an
`AttributeError` on any other value (e.g. `'str' object has no attribute
get`). -/
def pyGetD (v : PyVal) (key : String) (default : PyVal) : Except PyError PyVal :=
  match v with
  | PyVal.dict es =>
      match es.lookup key with
      | some w => Except.ok w
      | none => Except.ok default
  | _ => Except.error (PyError.attributeError "object has no attribute get")

/-- Python `d.get(key)` (default `None`). -/
def pyGet (v : PyVal) (key : String) : Except PyError PyVal :=
  pyGetD v key PyVal.none

/-- Python truthiness of an embedded value. -/
def pyTruthy : PyVal → Bool
  | PyVal.none => false
  | PyVal.bool b => b
  | PyVal.int n => n != 0
  | PyVal.rat q => q != 0
  | PyVal.str s => s != ""
  | PyVal.list xs => !xs.isEmpty
  | PyVal.dict es => !es.isEmpty

/-- Python `str()` on embedded values, as interpolated by the handlers
(f-strings such as the metric id).  Containers are abbreviated, which is
irrelevant to the claims. -/
def pyStr : PyVal → String
  | PyVal.none => "None"
  | PyVal.bool true => "True"
  | PyVal.bool false => "False"
  | PyVal.int n => toString n
  | PyVal.rat q => toString q
  | PyVal.str s => s
  | PyVal.list _ => "<list>"
  | PyVal.dict _ => "<dict>"

namespace Scraper

/-! Embedding of `src/lambdas/scraper/handler.py`. -/

/-- Outcome of one Tier-1 direct HTTP request (`requests.get` in
`scrape_with_retry`): a timeout exception, another
`requests.exceptions.RequestException`, or a successful response body. -/
inductive Tier1Outcome where
  | timeout : Tier1Outcome
  | reqError : Tier1Outcome
  | ok (content : String) : Tier1Outcome
deriving DecidableEq, Repr

/-- Result of `scrape_with_retry`, together with the number of HTTP request
attempts actually made.  `noneReturn` is the case where Python falls off the
end of the `for` loop and implicitly returns `None`. -/
inductive RetryResult where
  | success (content : String) (attempts : Nat) : RetryResult
  | raised (msg : String) (attempts : Nat) : RetryResult
  | noneReturn (attempts : Nat) : RetryResult
deriving DecidableEq, Repr

/-- The loop of `scrape_with_retry` (handler.py lines 172-215), from
iteration `attempt` of `for attempt in range(max_retries)`; `remaining` is
the number of iterations the range still holds (`max_retries - attempt`),
so the loop exits — Python implicitly returning `None` — when it reaches
zero.  `env i` is the outcome of the `i`-th HTTP request.  On `Timeout`
the code retries only when `attempt < 1`; on other `RequestException`s it
retries while `attempt < max_retries - 1`. -/
def scrape_go (env : Nat → Tier1Outcome) (max_retries : Nat) :
    Nat → Nat → RetryResult
  | attempt, 0 => RetryResult.noneReturn attempt
  | attempt, remaining + 1 =>
    match env attempt with
    | Tier1Outcome.ok c => RetryResult.success c (attempt + 1)
    | Tier1Outcome.timeout =>
        if attempt < 1 then
          scrape_go env max_retries (attempt + 1) remaining
        else
          RetryResult.raised ("Read timeout after " ++ toString (attempt + 1) ++ " attempts") (attempt + 1)
    | Tier1Outcome.reqError =>
        if attempt < max_retries - 1 then
          scrape_go env max_retries (attempt + 1) remaining
        else
          RetryResult.raised ("Failed to scrape after " ++ toString max_retries ++ " attempts") (attempt + 1)

/-- `scrape_with_retry(url, max_retries)` (Tier 1, basic HTTP). -/
def scrape_with_retry (env : Nat → Tier1Outcome) (max_retries : Nat) : RetryResult :=
  scrape_go env max_retries 0 max_retries

/-- Number of HTTP request attempts a Tier-1 run made. -/
def attemptsMade : RetryResult → Nat
  | RetryResult.success _ n => n
  | RetryResult.raised _ n => n
  | RetryResult.noneReturn n => n

/-- Result of resolving the robots-exclusion policy for a URL:
`Except.error` means `RobotFileParser.read`/`can_fetch` raised (network
error, unreachable host, malformed file); `Except.ok b` means the policy
resolved and `can_fetch` returned `b`. -/
def RobotsOutcome := Except Unit Bool

/-- `check_robots_txt(url)` (handler.py lines 52-74): returns the
`can_fetch` verdict, and returns `True` when resolution raises. -/
def check_robots_txt (r : Except Unit Bool) : Bool :=
  match r with
  | Except.ok b => b
  | Except.error _ => true

/-- The key under which `S3Helper.upload_markdown` (s3_helper.py lines
16-44) stores a content blob. -/
def upload_markdown_key (website_id timestamp : String) : String :=
  "scrapes/" ++ website_id ++ "/" ++ timestamp ++ ".md"

/-- The method names class `S3Helper` defines (s3_helper.py): there is no
`upload_html` among them. -/
def s3HelperMethods : List String := ["upload_markdown", "download_html", "get_latest_html"]

/-- Python attribute lookup on an `S3Helper` instance: resolving a name the
class does not define raises `AttributeError`. -/
def s3HelperGetAttr (name : String) : Except PyError Unit :=
  if name ∈ s3HelperMethods then Except.ok ()
  else Except.error
    (PyError.attributeError ("S3Helper object has no attribute " ++ name))

/-- One row of the scraping-metrics table, as assembled by the scraper
handler (`metric_data`, lines 291-301 on success, 327-334 on failure).  The
`ttl` attribute (a wall-clock epoch) is not modelled. -/
structure MetricRecord where
  metric_id : String
  timestamp : String
  website_id : String
  success : Bool
  method : Option String
  cost : Option Rat
  scrape_duration : Option Rat
  content_length : Option Nat
  errorText : Option String
deriving DecidableEq, Repr

/-- The `scrape_result` object of a successful scraper response
(handler.py lines 310-317). -/
structure ScrapeResult where
  s3_key : String
  timestamp : String
  content_length : Nat
  scrape_duration : Rat
  method : String
  cost : Rat
deriving DecidableEq, Repr

/-- A scraper step response: `ok` carries `statusCode: 200` (lines
306-318), `err` carries `statusCode: 500` (lines 339-344). -/
inductive Response where
  | ok (website_id : String) (website : PyVal) (scrape_result : ScrapeResult) : Response
  | err (errorText : String) (website_id : String) (website : PyVal) : Response

/-- The `statusCode` field of a scraper response. -/
def Response.statusCode : Response → Nat
  | Response.ok _ _ _ => 200
  | Response.err _ _ _ => 500

/-- Environment of one scraper invocation: the outcomes the external
collaborators would produce.  `robots` is the robots.txt resolution,
`tier1 i` the outcome of the `i`-th direct HTTP request, `firecrawl` the
outcome of `scrape_with_firecrawl` (content and computed cost, or the
raised message), `timestamp` the value of `datetime.utcnow().isoformat()`
and `duration` the measured `time.time() - start_time`. -/
structure Env where
  robots : Except Unit Bool
  tier1 : Nat → Tier1Outcome
  max_retries : Nat
  firecrawl : Except String (String × Rat)
  timestamp : String
  duration : Rat

/-- Local variables of the handler body that its `except` block consults
through `'website_id' in locals()` / `'website' in locals()`. -/
structure Locals where
  website : Option PyVal
  website_id : Option PyVal

/-- Effects of one scraper invocation: blobs written to the content bucket
(key, body) and rows written to the metrics table. -/
structure Effects where
  blobs : List (String × String)
  metrics : List MetricRecord

/-- The two-tier fetch of the handler body (lines 244-280): when robots.txt
blocks, go straight to Firecrawl (method `firecrawl_robots`); otherwise try
Tier 1 and fall back to Firecrawl (method `firecrawl`) when Tier 1 raises.
Returns the fetched content (`Option.none` embeds Python `None`, which
`scrape_with_retry` returns when its loop exhausts without raising), the
method tag and the cost, or the raised exception. -/
def fetchContent (env : Env) : Except PyError (Option String × String × Rat) :=
  let robots_blocked := !(check_robots_txt env.robots)
  if robots_blocked then
    match env.firecrawl with
    | Except.ok (c, cost) => Except.ok (some c, "firecrawl_robots", cost)
    | Except.error msg =>
        Except.error (PyError.exception
          ("Firecrawl failed for robots.txt blocked site: " ++ msg))
  else
    match scrape_with_retry env.tier1 env.max_retries with
    | RetryResult.success c _ => Except.ok (some c, "basic_http", 0)
    | RetryResult.noneReturn _ => Except.ok (Option.none, "basic_http", 0)
    | RetryResult.raised _ _ =>
        match env.firecrawl with
        | Except.ok (c, cost) => Except.ok (some c, "firecrawl", cost)
        | Except.error msg =>
            Except.error (PyError.exception
              ("All scraping methods failed. Last error: " ++ msg))

/-- The `try` block of the scraper handler (lines 231-318), returning the
locals alongside the outcome so the `except` block can be embedded
faithfully.  The persist step invokes the attribute `upload_html` on the
`S3Helper` instance (line 287); the branch taken when that attribute
exists persists under `upload_markdown`'s key, the only content-persisting
method the class defines. -/
def scraper_try (env : Env) (event : PyVal) :
    Locals × Except PyError (Response × Effects) :=
  let L0 : Locals := ⟨Option.none, Option.none⟩
  match pyGetD event "website" (PyVal.dict []) with
  | Except.error e => (L0, Except.error e)
  | Except.ok website =>
  let L1 : Locals := ⟨some website, Option.none⟩
  match pyGet website "website_id" with
  | Except.error e => (L1, Except.error e)
  | Except.ok wid =>
  let L2 : Locals := ⟨some website, some wid⟩
  match pyGet website "url" with
  | Except.error e => (L2, Except.error e)
  | Except.ok urlv =>
  if !(pyTruthy wid && pyTruthy urlv) then
    (L2, Except.error (PyError.valueError "Missing required fields: website_id or url"))
  else
    match fetchContent env with
    | Except.error e => (L2, Except.error e)
    | Except.ok (content, method, cost) =>
      match s3HelperGetAttr "upload_html" with
      | Except.error e => (L2, Except.error e)
      | Except.ok _ =>
        let body := match content with
          | some c => c
          | Option.none => "None"
        let key := upload_markdown_key (pyStr wid) env.timestamp
        let len := body.length
        let metric : MetricRecord :=
          { metric_id := pyStr wid ++ "_" ++ env.timestamp
            timestamp := env.timestamp
            website_id := pyStr wid
            success := true
            method := some method
            cost := some cost
            scrape_duration := some env.duration
            content_length := some len
            errorText := Option.none }
        (L2, Except.ok
          (Response.ok (pyStr wid) website
            { s3_key := key
              timestamp := env.timestamp
              content_length := len
              scrape_duration := env.duration
              method := method
              cost := cost },
           { blobs := [(key, body)], metrics := [metric] }))

/-- `lambda_handler(event, context)` of the scraper (lines 218-344).  The
`except` block writes a best-effort failure metric and returns a
structured 500 response; it guards both locals with `in locals()`
(lines 328-343), so it never raises itself. -/
def lambda_handler (env : Env) (event : PyVal) : Response × Effects :=
  match scraper_try env event with
  | (_, Except.ok r) => r
  | (L, Except.error e) =>
    let wid := match L.website_id with
      | some w => pyStr w
      | Option.none => "unknown"
    let website := match L.website with
      | some w => w
      | Option.none => PyVal.dict []
    let metric : MetricRecord :=
      { metric_id := wid ++ "_" ++ env.timestamp
        timestamp := env.timestamp
        website_id := wid
        success := false
        method := Option.none
        cost := Option.none
        scrape_duration := Option.none
        content_length := Option.none
        errorText := some e.text }
    (Response.err e.text wid website, { blobs := [], metrics := [metric] })

end Scraper

namespace Detector

/-! Embedding of `src/lambdas/detector/handler.py`. -/

/-- Outcome of the OpenAI chat-completions call in `detect_with_llm`:
either the call raised (network failure, timeout, API error) or it
returned a message whose content is `text`. -/
inductive LlmOutcome where
  | apiError (msg : String) : LlmOutcome
  | response (text : String) : LlmOutcome

/-- A detection, as returned by either tier (the dicts built at handler.py
lines 55-61 and 151-157).  The `reasoning` field of the LLM dict is
carried by the source but read by nothing downstream, so it is not
modelled. -/
structure Detection where
  found : Bool
  method : String
  selector : Option String
  text : String
  confidence : Rat
deriving DecidableEq, Repr

/-- `detect_with_css_selectors(html, selectors)` (lines 35-67): walk the
selectors in list order; on the first selector with at least one matching
element, join the elements' stripped text with single spaces, truncate to
500 characters, and report method `css_selector` with confidence 0.9.
`select` is BeautifulSoup's selector matching on the parsed HTML, giving
each matched element's `get_text(strip=True)`. -/
def detect_with_css_selectors (select : String → List String) : List String → Option Detection
  | [] => Option.none
  | s :: rest =>
    let elements := select s
    if elements.isEmpty then
      detect_with_css_selectors select rest
    else
      some { found := true
             method := "css_selector"
             selector := some s
             text := (String.intercalate " " elements).take 500
             confidence := 9/10 }

/-- The code-fence stripping of `detect_with_llm` (lines 136-144): strip
the raw content, and when it starts with a fence take the text between the
first fences, dropping a leading `json` tag. -/
def stripCodeFences (raw : String) : String :=
  let t := raw.trim
  if t.startsWith "```" then
    let t1 := ((t.splitOn "```").getD 1 "")
    let t2 := if t1.startsWith "json" then t1.drop 4 else t1
    t2.trim
  else t

/-- Python `float()` coercion as applied to the parsed `confidence` field
(line 155).  Numeric-string parsing is not modelled (no claim exercises
it); any non-numeric value raises, which the surrounding `except` turns
into `None`. -/
def pyFloat : PyVal → Except PyError Rat
  | PyVal.int n => Except.ok (n : Rat)
  | PyVal.rat q => Except.ok q
  | PyVal.bool b => Except.ok (if b then 1 else 0)
  | _ => Except.error (PyError.typeError "float() argument is not a number")

/-- `detect_with_llm(html, website_name)` (lines 70-164).  The whole body
runs in a `try` whose `except` returns `None` (lines 161-164), so every
failure path — missing API key, API call raising, unparseable JSON,
non-dict payload, ill-typed fields — yields `None`.  `jsonLoads` embeds
`json.loads` (returning `Option.none` when it raises). -/
def detect_with_llm (key : Option String) (llm : LlmOutcome)
    (jsonLoads : String → Option PyVal) : Option Detection :=
  match key with
  | Option.none => Option.none
  | some _ =>
    match llm with
    | LlmOutcome.apiError _ => Option.none
    | LlmOutcome.response raw =>
      match jsonLoads (stripCodeFences raw) with
      | Option.none => Option.none
      | some result =>
        match pyGet result "promotion_found" with
        | Except.error _ => Option.none
        | Except.ok pf =>
          if pyTruthy pf then
            match pyGetD result "promotion_text" (PyVal.str ""),
                  pyGetD result "confidence" (PyVal.rat (4/5)) with
            | Except.ok (PyVal.str t), Except.ok cv =>
              match pyFloat cv with
              | Except.ok q =>
                  some { found := true
                         method := "llm_openai"
                         selector := Option.none
                         text := t.take 500
                         confidence := q }
              | Except.error _ => Option.none
            | _, _ => Option.none
          else
            Option.none

/-- One row of the promotions table, as assembled at handler.py lines
218-227. -/
structure PromotionRecord where
  promotion_id : String
  timestamp : String
  website_id : String
  promotion_text : String
  detection_method : String
  confidence : Rat
  s3_key : String
  is_active : Bool
deriving DecidableEq, Repr

/-- `DynamoDBHelper.save_promotion` (dynamo_helper.py lines 52-62): a
`put_item` on the promotions table, whose key is
(`promotion_id`, `timestamp`) per the CDK stack — replace the row with the
same key if present, else append. -/
def save_promotion (table : List PromotionRecord) (r : PromotionRecord) :
    List PromotionRecord :=
  (table.filter fun q => !(q.promotion_id == r.promotion_id && q.timestamp == r.timestamp)) ++ [r]

/-- Python iteration over the `promotion_selectors` value as
`soup.select` consumes it: each element must be a string (a non-string
selector makes BeautifulSoup raise, which `detect_with_css_selectors`
re-raises, line 67). -/
def toSelectorList (v : PyVal) : Except PyError (List String) :=
  match v with
  | PyVal.list xs =>
      xs.foldr
        (fun x acc =>
          match x, acc with
          | PyVal.str s, Except.ok l => Except.ok (s :: l)
          | _, Except.ok _ => Except.error (PyError.typeError "selector must be a string")
          | _, e => e)
        (Except.ok [])
  | _ => Except.error (PyError.typeError "selectors must be a list")

/-- Environment of one detector invocation.  `openai_api_key` is the
module-level `OPENAI_API_KEY` (`None` when the Parameter Store load at
container startup failed, lines 20-32); `soup html selector` is
BeautifulSoup matching on `html`; `llm` and `jsonLoads` drive Tier 2;
`s3 key` is `S3Helper.download_html`; `promotions` is the table before the
invocation; `uuid` and `timestamp` are the fresh id and clock reading. -/
structure Env where
  openai_api_key : Option String
  soup : String → String → List String
  llm : LlmOutcome
  jsonLoads : String → Option PyVal
  s3 : String → Except String String
  promotions : List PromotionRecord
  uuid : String
  timestamp : String

/-- A detector step response (`statusCode` 200 for both detection
outcomes, lines 233-254; 500 on the `except` path, lines 258-263). -/
inductive Response where
  | found (website_id : String) (website : PyVal) (promotion_id : String)
      (promotion_text : String) (confidence : Rat) : Response
  | notFound (website_id : String) (website : PyVal) : Response
  | err (errorText : String) (website_id : String) (website : PyVal) : Response

/-- The `statusCode` field of a detector response. -/
def Response.statusCode : Response → Nat
  | Response.found _ _ _ _ _ => 200
  | Response.notFound _ _ => 200
  | Response.err _ _ _ => 500

/-- The `detection_result.promotion_found` field (absent on the 500
shape). -/
def Response.promotion_found : Response → Option Bool
  | Response.found _ _ _ _ _ => some true
  | Response.notFound _ _ => some false
  | Response.err _ _ _ => Option.none

/-- Locals the detector's `except` block consults (guarded by
`in locals()`, lines 261-262). -/
structure Locals where
  website : Option PyVal
  website_id : Option PyVal

/-- The `try` block of the detector handler (lines 180-254), returning the
locals, and on success the response together with the promotions table
after the invocation. -/
def detector_try (env : Env) (event : PyVal) :
    Locals × Except PyError (Response × List PromotionRecord) :=
  let L0 : Locals := ⟨Option.none, Option.none⟩
  match (do
      let so ← pyGetD event "scraper_output" (PyVal.dict [])
      pyGetD so "Payload" (PyVal.dict []) : Except PyError PyVal) with
  | Except.error e => (L0, Except.error e)
  | Except.ok scraper_output =>
  match (do
      let d ← pyGetD event "website" (PyVal.dict [])
      let w ← pyGetD scraper_output "website" d
      pure w : Except PyError PyVal) with
  | Except.error e => (L0, Except.error e)
  | Except.ok website =>
  let L1 : Locals := ⟨some website, Option.none⟩
  match (do
      let d ← pyGetD event "scrape_result" (PyVal.dict [])
      pyGetD scraper_output "scrape_result" d : Except PyError PyVal) with
  | Except.error e => (L1, Except.error e)
  | Except.ok scrape_result =>
  match pyGet website "website_id" with
  | Except.error e => (L1, Except.error e)
  | Except.ok wid =>
  let L2 : Locals := ⟨some website, some wid⟩
  match pyGet scrape_result "s3_key" with
  | Except.error e => (L2, Except.error e)
  | Except.ok s3k =>
  match pyGetD website "promotion_selectors" (PyVal.list []) with
  | Except.error e => (L2, Except.error e)
  | Except.ok selectorsV =>
  if !(pyTruthy wid && pyTruthy s3k) then
    (L2, Except.error (PyError.valueError "Missing required fields: website_id or s3_key"))
  else
    match (match s3k with
           | PyVal.str k => (env.s3 k).mapError PyError.exception |>.map (fun h => (k, h))
           | _ => Except.error (PyError.typeError "s3 key must be a string")) with
    | Except.error e => (L2, Except.error e)
    | Except.ok (key, html) =>
    match (if pyTruthy selectorsV then
             (toSelectorList selectorsV).map fun sels =>
               detect_with_css_selectors (env.soup html) sels
           else
             Except.ok Option.none) with
    | Except.error e => (L2, Except.error e)
    | Except.ok tier1 =>
      let detection_result :=
        match tier1 with
        | some d => some d
        | Option.none => detect_with_llm env.openai_api_key env.llm env.jsonLoads
      match detection_result with
      | some d =>
          let promo : PromotionRecord :=
            { promotion_id := env.uuid
              timestamp := env.timestamp
              website_id := pyStr wid
              promotion_text := d.text
              detection_method := d.method
              confidence := d.confidence
              s3_key := key
              is_active := true }
          (L2, Except.ok
            (Response.found (pyStr wid) website promo.promotion_id
               promo.promotion_text promo.confidence,
             save_promotion env.promotions promo))
      | Option.none =>
          (L2, Except.ok (Response.notFound (pyStr wid) website, env.promotions))

/-- `lambda_handler(event, context)` of the detector (lines 167-263). -/
def lambda_handler (env : Env) (event : PyVal) : Response × List PromotionRecord :=
  match detector_try env event with
  | (_, Except.ok r) => r
  | (L, Except.error e) =>
    let wid := match L.website_id with
      | some w => pyStr w
      | Option.none => "unknown"
    let website := match L.website with
      | some w => w
      | Option.none => PyVal.dict []
    (Response.err e.text wid website, env.promotions)

end Detector

namespace Predictor

/-! Embedding of `src/lambdas/predictor/handler.py`.  Promotion timestamps
are embedded as epoch seconds (`Int`); ISO-8601 timestamps of one format
compare lexicographically exactly as their instants compare, so sorting by
the string timestamp is sorting these integers, and Python
`(curr_date - prev_date).days` is floor division of the difference by
86400 seconds. -/

/-- `MIN_DATA_POINTS_WEIGHTED` (constants.py line 17). -/
def MIN_DATA_POINTS_WEIGHTED : Nat := 10

/-- The consecutive day-gaps of a timestamp list (handler.py lines 33-38):
`(curr_date - prev_date).days` for each adjacent pair. -/
def dayGaps : List Int → List Int
  | t1 :: t2 :: rest => Int.fdiv (t2 - t1) 86400 :: dayGaps (t2 :: rest)
  | _ => []

/-- `sum(interval * weight ...)` with `weights = [2**i ...]`, weight `2^i`
on the `i`-th interval (0-indexed from the oldest), lines 44-45. -/
def weightedSum : List Int → Int
  | [] => 0
  | g :: rest => g + 2 * weightedSum rest

/-- `total_weight = sum(weights)` (line 46), i.e. `2^n - 1` for `n`
intervals. -/
def totalWeight : List Int → Int
  | [] => 0
  | _ :: rest => 1 + 2 * totalWeight rest

/-- Insertion of a timestamp into a sorted list (ascending). -/
def insertAsc (x : Int) : List Int → List Int
  | [] => [x]
  | y :: ys => if x ≤ y then x :: y :: ys else y :: insertAsc x ys

/-- `sorted(promotions, key=lambda x: x['timestamp'])` (line 30): an
ascending sort of the timestamps (insertion sort; Python's stable sort
produces the same ascending sequence of timestamp keys). -/
def sortTimestamps : List Int → List Int
  | [] => []
  | x :: xs => insertAsc x (sortTimestamps xs)

/-- `calculate_weighted_average(promotions)` (lines 16-48): below 2
records return the 30-day default; otherwise sort ascending by timestamp,
take consecutive day-gaps, and return the floor of the weighted sum over
the total weight.  (`int()` on the nonnegative quotient produced by a
sorted list truncates exactly as `Int.fdiv` floors; the rational division
embeds Python division exactly.) -/
def calculate_weighted_average (promotions : List Int) : Int :=
  if promotions.length < 2 then 30
  else
    let sorted_promos := sortTimestamps promotions
    let intervals := dayGaps sorted_promos
    if intervals.isEmpty then 30
    else Int.fdiv (weightedSum intervals) (totalWeight intervals)

/-- One row of the predictions table, as assembled at handler.py lines
98-107. -/
structure PredictionRecord where
  website_id : String
  prediction_timestamp : Int
  predicted_date : Int
  days_until_next : Int
  prediction_method : String
  confidence : Rat
  data_points_used : Nat
  is_latest : String
deriving DecidableEq, Repr

/-- `DynamoDBHelper.save_prediction` (dynamo_helper.py lines 90-100): a
`put_item` on the predictions table, whose key is
(`website_id`, `prediction_timestamp`) per the CDK stack — replace the
row with the same key if present, else append.  No other row is touched:
in particular no prior row's `is_latest` attribute is cleared. -/
def save_prediction (table : List PredictionRecord) (r : PredictionRecord) :
    List PredictionRecord :=
  (table.filter fun q =>
    !(q.website_id == r.website_id && q.prediction_timestamp == r.prediction_timestamp)) ++ [r]

/-- The rows of the predictions table discoverable as the latest
prediction of a site: the `LatestPredictionsIndex` GSI partitions on the
string attribute `is_latest` (infrastructure_stack.py lines 96-104), so
discoverability is `is_latest = "true"` filtered to the site. -/
def latestDiscoverable (table : List PredictionRecord) (wid : String) :
    List PredictionRecord :=
  table.filter fun r => r.is_latest == "true" && r.website_id == wid

/-- Environment of one predictor invocation: `history` is what
`get_website_promotions(website_id, limit=100)` returns (its timestamps),
`now` the clock reading used for both `prediction_timestamp` and the
predicted date, `predictions` the table before the invocation. -/
structure Env where
  history : List Int
  now : Int
  predictions : List PredictionRecord

/-- A predictor step response (lines 113-117 on success, 121-125 on the
`except` path; the failure shape carries the raw `website_id` value). -/
inductive Response where
  | ok (website_id : String) (prediction : PredictionRecord) : Response
  | err (errorText : String) (website_id : PyVal) : Response

/-- The `statusCode` field of a predictor response. -/
def Response.statusCode : Response → Nat
  | Response.ok _ _ => 200
  | Response.err _ _ => 500

/-- The `try` block of the predictor handler (lines 64-117).  The first
component is the local variable `website_id` if it was bound when the
block finished or raised. -/
def predictor_try (env : Env) (event : PyVal) :
    Option PyVal × Except PyError (Response × List PredictionRecord) :=
  match (do
      let d ← pyGetD event "detector_output" (PyVal.dict [])
      let detector_output ← pyGetD d "Payload" (PyVal.dict [])
      let wdef ← pyGetD event "website" (PyVal.dict [])
      let website ← pyGetD detector_output "website" wdef
      let ddef ← pyGetD event "detection_result" (PyVal.dict [])
      let _detection_result ← pyGetD detector_output "detection_result" ddef
      pyGet website "website_id" : Except PyError PyVal) with
  | Except.error e => (Option.none, Except.error e)
  | Except.ok wid =>
    if !(pyTruthy wid) then
      (some wid, Except.error (PyError.valueError "Missing required field: website_id"))
    else
      let promotions := env.history
      let method_days_conf :=
        if promotions.length < MIN_DATA_POINTS_WEIGHTED then
          ("calendar_heuristic", (30 : Int), (3/10 : Rat))
        else
          ("weighted_average", calculate_weighted_average promotions, (7/10 : Rat))
      let record : PredictionRecord :=
        { website_id := pyStr wid
          prediction_timestamp := env.now
          predicted_date := env.now + method_days_conf.2.1 * 86400
          days_until_next := method_days_conf.2.1
          prediction_method := method_days_conf.1
          confidence := method_days_conf.2.2
          data_points_used := promotions.length
          is_latest := "true" }
      (some wid,
       Except.ok (Response.ok (pyStr wid) record, save_prediction env.predictions record))

/-- `lambda_handler(event, context)` of the predictor (lines 51-125).  Its
`except` block (lines 119-125) references the local `website_id` without
an `in locals()` guard, so when the `try` block raised before binding it,
the `except` block itself raises `UnboundLocalError`, which propagates out
of the handler. -/
def lambda_handler (env : Env) (event : PyVal) :
    Except PyError (Response × List PredictionRecord) :=
  match predictor_try env event with
  | (_, Except.ok r) => Except.ok r
  | (some wid, Except.error e) => Except.ok (Response.err e.text wid, env.predictions)
  | (Option.none, Except.error _) => Except.error (PyError.unboundLocalError "website_id")

end Predictor

/-! Concrete instances used by the closed theorems and the witnesses. -/

/-- A scraper event with both required fields present. -/
def scraperOkEvent : PyVal :=
  PyVal.dict [("website", PyVal.dict
    [("website_id", PyVal.str "s1"), ("url", PyVal.str "https://x.test")])]

/-- A scraper environment in which robots.txt allows the fetch and the very
first Tier-1 HTTP request succeeds. -/
def scraperOkEnv : Scraper.Env :=
  { robots := Except.ok true
    tier1 := fun _ => Scraper.Tier1Outcome.ok "<div>50 percent off</div>"
    max_retries := 3
    firecrawl := Except.ok ("markdown content", 3/5000)
    timestamp := "2024-01-01T00:00:00"
    duration := 1 }

/-- Tier-1 outcomes: two non-timeout transport errors, then timeouts. -/
def mixedErrorOutcomes : Nat → Scraper.Tier1Outcome := fun i =>
  if i < 2 then Scraper.Tier1Outcome.reqError else Scraper.Tier1Outcome.timeout

/-- A predictor event whose `website` value is a string, so the `try`
block raises before `website_id` is bound. -/
def predictorBadEvent : PyVal := PyVal.dict [("website", PyVal.str "boom")]

/-- A well-formed predictor event for site `wid`. -/
def mkPredictorEvent (wid : String) : PyVal :=
  PyVal.dict [("website", PyVal.dict [("website_id", PyVal.str wid)])]

/-- A predictor environment with no promotion history over table
`predictions` at clock `now`. -/
def mkPredictorEnv (now : Int) (predictions : List Predictor.PredictionRecord) :
    Predictor.Env :=
  { history := [], now := now, predictions := predictions }

/-- Predictions table after a first Forecaster invocation for site s1 on an
empty table. -/
def predictionsAfterFirst : List Predictor.PredictionRecord :=
  match Predictor.lambda_handler (mkPredictorEnv 1000 []) (mkPredictorEvent "s1") with
  | Except.ok (_, t) => t
  | Except.error _ => []

/-- Predictions table after a second Forecaster invocation for site s1,
one clock tick later. -/
def predictionsAfterSecond : List Predictor.PredictionRecord :=
  match Predictor.lambda_handler (mkPredictorEnv 87400 predictionsAfterFirst)
      (mkPredictorEvent "s1") with
  | Except.ok (_, t) => t
  | Except.error _ => []

/-- A selector-matching function under which selector `.b` matches one
element with text `50% off` and every other selector matches nothing. -/
def c5Select : String → List String := fun s => if s = ".b" then ["50% off"] else []

/-- The `website` object of a well-formed detector event. -/
def mkDetectorWebsite (wid : String) (selectors : List String) : PyVal :=
  PyVal.dict
    [("website_id", PyVal.str wid),
     ("name", PyVal.str wid),
     ("promotion_selectors", PyVal.list (selectors.map PyVal.str))]

/-- A well-formed detector event for site `wid` over blob `s3key`. -/
def mkDetectorEvent (wid s3key : String) (selectors : List String) : PyVal :=
  PyVal.dict
    [("website", mkDetectorWebsite wid selectors),
     ("scrape_result", PyVal.dict [("s3_key", PyVal.str s3key)])]

/-- A detector environment whose model tier returns unparseable JSON. -/
def detectorBadJsonEnv : Detector.Env :=
  { openai_api_key := some "sk-test"
    soup := fun _ _ => []
    llm := Detector.LlmOutcome.response "not json"
    jsonLoads := fun _ => Option.none
    s3 := fun _ => Except.ok "<html></html>"
    promotions := []
    uuid := "u1"
    timestamp := "2024-01-01T00:00:00" }

/-- A detector environment in which the API-key load failed at startup. -/
def detectorNoKeyEnv : Detector.Env :=
  { openai_api_key := Option.none
    soup := fun _ _ => []
    llm := Detector.LlmOutcome.response "irrelevant"
    jsonLoads := fun _ => Option.none
    s3 := fun _ => Except.ok "<html></html>"
    promotions := []
    uuid := "u1"
    timestamp := "2024-01-01T00:00:00" }

/-- The prediction record the calendar-heuristic path of the predictor
assembles (handler.py lines 80-107) for site `wid` under environment
`env`. -/
def heuristicRecord (env : Predictor.Env) (wid : String) : Predictor.PredictionRecord :=
  { website_id := wid
    prediction_timestamp := env.now
    predicted_date := env.now + 30 * 86400
    days_until_next := 30
    prediction_method := "calendar_heuristic"
    confidence := 3/10
    data_points_used := env.history.length
    is_latest := "true" }

/-- A predictor environment with the three-promotion history of the spec
example (gaps of 31 and 43 days). -/
def sparseHistoryEnv : Predictor.Env :=
  { history := [0, 2678400, 6393600], now := 7000000, predictions := [] }

/-- Eleven promotion timestamps with uniform 10-day gaps
(864000 seconds). -/
def uniformPromotions : List Int := (List.range 11).map fun i => 864000 * (i : Int)

/-- C1: on a successful scrape the handler is claimed to persist the blob,
persist a success metric and return 200 without raising.  It does not: the
persist step invokes `s3_helper.upload_html` (handler.py line 287) but
class `S3Helper` defines no such method, so the success path raises
`AttributeError`, writes a failure metric and returns a 500 response with
no blob persisted. -/
theorem scraper_success_path_raises_attribute_error :
    Scraper.lambda_handler scraperOkEnv scraperOkEvent =
      (Scraper.Response.err "S3Helper object has no attribute upload_html" "s1"
        (PyVal.dict [("website_id", PyVal.str "s1"), ("url", PyVal.str "https://x.test")]),
       { blobs := []
         metrics := [{ metric_id := "s1_2024-01-01T00:00:00"
                       timestamp := "2024-01-01T00:00:00"
                       website_id := "s1"
                       success := false
                       method := Option.none
                       cost := Option.none
                       scrape_duration := Option.none
                       content_length := Option.none
                       errorText := some "S3Helper object has no attribute upload_html" }] }) ∧
    (Scraper.lambda_handler scraperOkEnv scraperOkEvent).1.statusCode = 500 :=
  ⟨rfl, rfl⟩

/-- C2: each step is claimed to catch any exception and return a
structured 500 response for every input event.  The predictor does not:
its `except` block reads the local `website_id` without the
`in locals()` guard its sibling handlers use, so on an event whose
`website` value is not a dictionary the `try` block raises before
`website_id` is bound and the `except` block itself raises
`UnboundLocalError`, which propagates past the step boundary. -/
theorem predictor_unguarded_except_block_propagates :
    Predictor.lambda_handler (mkPredictorEnv 0 []) predictorBadEvent =
      Except.error (PyError.unboundLocalError "website_id") := rfl

/-- C3: after two Forecaster invocations for site s1, the older
prediction row is still present (never deleted) but both rows carry
`is_latest = "true"`, so two predictions — not exactly one — remain
discoverable through the `LatestPredictionsIndex`: `save_prediction` is a
plain `put_item` that never clears the prior latest row's flag. -/
theorem second_prediction_does_not_supersede_first :
    (Predictor.latestDiscoverable predictionsAfterSecond "s1").length = 2 ∧
    predictionsAfterFirst.map Predictor.PredictionRecord.prediction_timestamp = [1000] ∧
    predictionsAfterSecond.map Predictor.PredictionRecord.prediction_timestamp = [1000, 87400] ∧
    predictionsAfterSecond.map Predictor.PredictionRecord.is_latest = ["true", "true"] :=
  ⟨rfl, rfl, rfl, rfl⟩

/-- C4 counterexample: an execution of the low-cost tier in which a
request times out but more than two attempts are made — with
`max_retries = 5`, two non-timeout transport errors followed by a timeout
yield three attempts, the third of which times out. -/
theorem timeout_after_transport_errors_exceeds_two_attempts :
    Scraper.scrape_with_retry mixedErrorOutcomes 5 =
      Scraper.RetryResult.raised "Read timeout after 3 attempts" 3 ∧
    mixedErrorOutcomes 2 = Scraper.Tier1Outcome.timeout ∧
    ¬ Scraper.attemptsMade (Scraper.scrape_with_retry mixedErrorOutcomes 5) ≤ 2 := by
  decide

/-- In a run whose every request fails with a non-timeout transport
error, the loop of `scrape_with_retry` makes exactly `max_retries`
attempts (full retry budget). -/
theorem scrape_go_all_reqError (env : Nat → Scraper.Tier1Outcome)
    (h : ∀ i, env i = Scraper.Tier1Outcome.reqError) (max_retries : Nat) :
    ∀ remaining attempt, attempt + remaining = max_retries → 1 ≤ remaining →
      Scraper.attemptsMade (Scraper.scrape_go env max_retries attempt remaining) = max_retries := by
  intro remaining
  induction remaining with
  | zero => intro attempt _ h1; omega
  | succ r ih =>
    intro attempt hsum _
    rw [Scraper.scrape_go, h attempt]
    by_cases hc : attempt < max_retries - 1
    · rw [if_pos hc]
      exact ih (attempt + 1) (by omega) (by omega)
    · rw [if_neg hc]
      show attempt + 1 = max_retries
      omega

/-- C4 amended: a timeout is retried only when it strikes the very first
attempt, so an execution whose failed requests are all timeouts makes at
most 2 attempts even when `max_retries > 2`; an execution whose requests
all fail with non-timeout transport errors receives the full budget of
`max_retries` attempts.  (When non-timeout errors precede a timeout the
total can exceed 2, as the counterexample shows.) -/
theorem scrape_retry_attempt_budget :
    (∀ (env : Nat → Scraper.Tier1Outcome) (max_retries : Nat),
        (∀ i, env i ≠ Scraper.Tier1Outcome.reqError) →
        Scraper.attemptsMade (Scraper.scrape_with_retry env max_retries) ≤ 2) ∧
    (∀ (env : Nat → Scraper.Tier1Outcome) (max_retries : Nat),
        1 ≤ max_retries →
        (∀ i, env i = Scraper.Tier1Outcome.reqError) →
        Scraper.attemptsMade (Scraper.scrape_with_retry env max_retries) = max_retries) := by
  constructor
  · intro env mr h
    match mr with
    | 0 => exact Nat.zero_le 2
    | 1 =>
      rw [Scraper.scrape_with_retry, Scraper.scrape_go]
      cases he0 : env 0 with
      | ok c => show (1 : Nat) ≤ 2; omega
      | reqError => exact absurd he0 (h 0)
      | timeout => show (1 : Nat) ≤ 2; omega
    | (m + 2) =>
      rw [Scraper.scrape_with_retry, Scraper.scrape_go]
      cases he0 : env 0 with
      | ok c => show (1 : Nat) ≤ 2; omega
      | reqError => exact absurd he0 (h 0)
      | timeout =>
        show Scraper.attemptsMade (Scraper.scrape_go env (m + 2) 1 (m + 1)) ≤ 2
        rw [Scraper.scrape_go]
        cases he1 : env 1 with
        | ok c => show (2 : Nat) ≤ 2; omega
        | reqError => exact absurd he1 (h 1)
        | timeout => show (2 : Nat) ≤ 2; omega
  · intro env mr h1 h
    exact scrape_go_all_reqError env h mr mr 0 (by omega) h1

/-- Witness for the amended C4 theorem at `max_retries = 5`: all-timeout
runs stop within 2 attempts, all-transport-error runs use all 5. -/
theorem scrape_retry_attempt_budget_witness :
    Scraper.attemptsMade
      (Scraper.scrape_with_retry (fun _ => Scraper.Tier1Outcome.timeout) 5) ≤ 2 ∧
    Scraper.attemptsMade
      (Scraper.scrape_with_retry (fun _ => Scraper.Tier1Outcome.reqError) 5) = 5 :=
  ⟨scrape_retry_attempt_budget.1 (fun _ => Scraper.Tier1Outcome.timeout) 5
      (fun _ hcontra => Scraper.Tier1Outcome.noConfusion hcontra),
   scrape_retry_attempt_budget.2 (fun _ => Scraper.Tier1Outcome.reqError) 5
      (by omega) (fun _ => rfl)⟩

/-- C7: when robots policy resolution raises, `check_robots_txt` reports
the fetch as allowed, and the whole handler behaves exactly as it does
when the policy explicitly permits the fetch (fail-open). -/
theorem robots_resolution_failure_fails_open (env : Scraper.Env) (event : PyVal) :
    Scraper.check_robots_txt (Except.error ()) = true ∧
    Scraper.lambda_handler { env with robots := Except.error () } event =
      Scraper.lambda_handler { env with robots := Except.ok true } event :=
  ⟨rfl, rfl⟩

/-- C5: structural detection tries the configured selectors in list order
and returns on the first selector with at least one matching element —
every earlier selector must have matched nothing — reporting method
`css_selector` (the structural tier's tag), that selector, fixed
confidence 0.9 and the matched elements' visible text joined with spaces
and truncated to 500 characters. -/
theorem structural_detection_first_match_wins
    (select : String → List String) (l1 l2 : List String) (s : String)
    (h1 : ∀ t ∈ l1, select t = []) (h2 : select s ≠ []) :
    Detector.detect_with_css_selectors select (l1 ++ s :: l2) =
      some { found := true
             method := "css_selector"
             selector := some s
             text := (String.intercalate " " (select s)).take 500
             confidence := 9/10 } := by
  induction l1 with
  | nil =>
    rw [List.nil_append, Detector.detect_with_css_selectors]
    cases hsel : select s with
    | nil => exact absurd hsel h2
    | cons a as => simp [hsel]
  | cons a rest ih =>
    have ha : select a = [] := h1 a (by simp)
    rw [List.cons_append, Detector.detect_with_css_selectors, ha]
    simpa using ih (fun t ht => h1 t (by simp [ht]))

/-- Witness for C5 at the spec's example: selector list `[".a", ".b"]`
with content matching only `.b` reports selector `.b`. -/
theorem structural_detection_first_match_wins_witness :
    Detector.detect_with_css_selectors c5Select ([".a"] ++ ".b" :: []) =
      some { found := true
             method := "css_selector"
             selector := some ".b"
             text := (String.intercalate " " (c5Select ".b")).take 500
             confidence := 9/10 } :=
  structural_detection_first_match_wins c5Select [".a"] [] ".b"
    (by decide) (by decide)

/-- A promotion-selectors value built from strings reads back as that
selector list. -/
theorem toSelectorList_map_str (sels : List String) :
    Detector.toSelectorList (PyVal.list (sels.map PyVal.str)) = Except.ok sels := by
  induction sels with
  | nil => rfl
  | cons a rest ih =>
    rw [Detector.toSelectorList] at ih ⊢
    rw [List.map_cons, List.foldr_cons, ih]

/-- When every configured selector matches nothing, structural detection
reports nothing. -/
theorem detect_with_css_selectors_all_miss (select : String → List String)
    (sels : List String) (h : ∀ s ∈ sels, select s = []) :
    Detector.detect_with_css_selectors select sels = Option.none := by
  induction sels with
  | nil => rfl
  | cons a rest ih =>
    have ha : select a = [] := h a (by simp)
    rw [Detector.detect_with_css_selectors, ha]
    simpa using ih (fun t ht => h t (by simp [ht]))

/-- C6: when Tier 1 finds nothing and the model tier's external call
fails or its payload is unparseable JSON, the Classifier returns a
status-200 response with `promotion_found = false`, writes no Promotion
record, and raises nothing (its handler is a total function into
responses). -/
theorem model_tier_failure_reports_not_found
    (env : Detector.Env) (wid s3key html k : String) (selectors : List String)
    (hwid : wid ≠ "") (hkey : s3key ≠ "")
    (hs3 : env.s3 s3key = Except.ok html)
    (hapikey : env.openai_api_key = some k)
    (hsel : ∀ s ∈ selectors, env.soup html s = [])
    (hfail : (∃ m, env.llm = Detector.LlmOutcome.apiError m) ∨
             (∃ t, env.llm = Detector.LlmOutcome.response t ∧
                   env.jsonLoads (Detector.stripCodeFences t) = Option.none)) :
    Detector.lambda_handler env (mkDetectorEvent wid s3key selectors) =
      (Detector.Response.notFound wid (mkDetectorWebsite wid selectors), env.promotions) ∧
    (Detector.Response.notFound wid (mkDetectorWebsite wid selectors)).statusCode = 200 ∧
    (Detector.Response.notFound wid (mkDetectorWebsite wid selectors)).promotion_found =
      some false := by
  refine ⟨?_, rfl, rfl⟩
  have hllm : Detector.detect_with_llm env.openai_api_key env.llm env.jsonLoads
      = Option.none := by
    rcases hfail with ⟨m, hm⟩ | ⟨t, ht, hj⟩
    · simp [Detector.detect_with_llm, hapikey, hm]
    · simp [Detector.detect_with_llm, hapikey, ht, hj]
  have hcss : ∀ sels : List String, (∀ s ∈ sels, env.soup html s = []) →
      Detector.detect_with_css_selectors (env.soup html) sels = Option.none :=
    fun sels hs => detect_with_css_selectors_all_miss (env.soup html) sels hs
  simp only [Detector.lambda_handler, Detector.detector_try, mkDetectorEvent,
    mkDetectorWebsite, pyGetD, pyGet, pyTruthy, pyStr, List.lookup, bind,
    Except.bind, pure, Except.pure]
  simp [hwid, hkey, hs3, Except.mapError, Except.map, hllm, hcss selectors hsel,
    toSelectorList_map_str, pyTruthy]
  cases selectors with
  | nil => simp [List.lookup, pyTruthy, pyStr, hllm]
  | cons a rest =>
    have h1 : Detector.toSelectorList (PyVal.list (PyVal.str a :: List.map PyVal.str rest)) =
        Except.ok (a :: rest) := toSelectorList_map_str (a :: rest)
    simp [List.lookup, pyTruthy, pyStr, h1, hcss (a :: rest) hsel, hllm]

/-- Witness for C6: unparseable model output yields a 200 not-found
response and leaves the promotions table empty. -/
theorem model_tier_failure_reports_not_found_witness :
    Detector.lambda_handler detectorBadJsonEnv (mkDetectorEvent "s1" "k1" [".promo"]) =
      (Detector.Response.notFound "s1" (mkDetectorWebsite "s1" [".promo"]),
       detectorBadJsonEnv.promotions) :=
  (model_tier_failure_reports_not_found detectorBadJsonEnv "s1" "k1" "<html></html>"
    "sk-test" [".promo"] (by decide) (by decide) rfl rfl
    (by intro s _; rfl)
    (Or.inr ⟨"not json", rfl, rfl⟩)).1

/-- C10: when the text-classification API key failed to load at startup
(`OPENAI_API_KEY` is `None`), the Classifier silently skips the model
tier: on any content where Tier 1 finds nothing it returns statusCode 200
with `promotion_found = false`, writes no Promotion record and reports no
error. -/
theorem missing_api_key_skips_model_tier
    (env : Detector.Env) (wid s3key html : String) (selectors : List String)
    (hwid : wid ≠ "") (hkey : s3key ≠ "")
    (hs3 : env.s3 s3key = Except.ok html)
    (hapikey : env.openai_api_key = Option.none)
    (hsel : ∀ s ∈ selectors, env.soup html s = []) :
    Detector.lambda_handler env (mkDetectorEvent wid s3key selectors) =
      (Detector.Response.notFound wid (mkDetectorWebsite wid selectors), env.promotions) ∧
    (Detector.Response.notFound wid (mkDetectorWebsite wid selectors)).statusCode = 200 ∧
    (Detector.Response.notFound wid (mkDetectorWebsite wid selectors)).promotion_found =
      some false := by
  refine ⟨?_, rfl, rfl⟩
  have hllm : Detector.detect_with_llm env.openai_api_key env.llm env.jsonLoads
      = Option.none := by
    simp [Detector.detect_with_llm, hapikey]
  have hcss : ∀ sels : List String, (∀ s ∈ sels, env.soup html s = []) →
      Detector.detect_with_css_selectors (env.soup html) sels = Option.none :=
    fun sels hs => detect_with_css_selectors_all_miss (env.soup html) sels hs
  simp only [Detector.lambda_handler, Detector.detector_try, mkDetectorEvent,
    mkDetectorWebsite, pyGetD, pyGet, pyTruthy, pyStr, List.lookup, bind,
    Except.bind, pure, Except.pure]
  simp [hwid, hkey, hs3, Except.mapError, Except.map, hllm, hcss selectors hsel,
    toSelectorList_map_str, pyTruthy]
  cases selectors with
  | nil => simp [List.lookup, pyTruthy, pyStr, hllm]
  | cons a rest =>
    have h1 : Detector.toSelectorList (PyVal.list (PyVal.str a :: List.map PyVal.str rest)) =
        Except.ok (a :: rest) := toSelectorList_map_str (a :: rest)
    simp [List.lookup, pyTruthy, pyStr, h1, hcss (a :: rest) hsel, hllm]

/-- Witness for C10: with no API key loaded, a miss on the structural
tier yields a 200 not-found response and an unchanged table. -/
theorem missing_api_key_skips_model_tier_witness :
    Detector.lambda_handler detectorNoKeyEnv (mkDetectorEvent "s1" "k1" [".promo"]) =
      (Detector.Response.notFound "s1" (mkDetectorWebsite "s1" [".promo"]),
       detectorNoKeyEnv.promotions) :=
  (missing_api_key_skips_model_tier detectorNoKeyEnv "s1" "k1" "<html></html>"
    [".promo"] (by decide) (by decide) rfl rfl (by intro s _; rfl)).1

/-- C8: when the loaded promotion history holds fewer than
`MIN_DATA_POINTS_WEIGHTED` (10) records, the Forecaster persists the
calendar-heuristic prediction — exactly 30 days and confidence exactly
0.3 — regardless of the gaps between the records. -/
theorem sparse_history_uses_calendar_heuristic
    (env : Predictor.Env) (wid : String) (hwid : wid ≠ "")
    (hlen : env.history.length < Predictor.MIN_DATA_POINTS_WEIGHTED) :
    Predictor.lambda_handler env (mkPredictorEvent wid) =
      Except.ok (Predictor.Response.ok wid (heuristicRecord env wid),
        Predictor.save_prediction env.predictions (heuristicRecord env wid)) ∧
    (heuristicRecord env wid).days_until_next = 30 ∧
    (heuristicRecord env wid).confidence = 3/10 ∧
    (heuristicRecord env wid).prediction_method = "calendar_heuristic" := by
  refine ⟨?_, rfl, rfl, rfl⟩
  simp only [Predictor.lambda_handler, Predictor.predictor_try, mkPredictorEvent,
    pyGetD, pyGet, pyTruthy, pyStr, List.lookup, bind, Except.bind]
  simp [hwid, hlen, heuristicRecord]

/-- Witness for C8 at the spec's example history (three promotions with
gaps of 31 and 43 days): the heuristic fires with 30 days. -/
theorem sparse_history_uses_calendar_heuristic_witness :
    Predictor.lambda_handler sparseHistoryEnv (mkPredictorEvent "s1") =
      Except.ok (Predictor.Response.ok "s1" (heuristicRecord sparseHistoryEnv "s1"),
        Predictor.save_prediction sparseHistoryEnv.predictions
          (heuristicRecord sparseHistoryEnv "s1")) :=
  (sparse_history_uses_calendar_heuristic sparseHistoryEnv "s1"
    (by decide) (by decide)).1

/-- The total weight of the weighted-interval computation is never
negative. -/
theorem totalWeight_nonneg (g : List Int) : 0 ≤ Predictor.totalWeight g := by
  induction g with
  | nil => exact le_refl 0
  | cons a rest ih => rw [Predictor.totalWeight]; omega

/-- On a constant gap list the weighted sum is the gap times the total
weight. -/
theorem weightedSum_replicate (m : Nat) (d : Int) :
    Predictor.weightedSum (List.replicate m d) =
      d * Predictor.totalWeight (List.replicate m d) := by
  induction m with
  | zero => simp [Predictor.weightedSum, Predictor.totalWeight, List.replicate]
  | succ n ih =>
    rw [List.replicate_succ, Predictor.weightedSum, Predictor.totalWeight, ih]
    ring

/-- C9: the weighted-interval computation weights the i-th day-gap of the
ascending-sorted history (0-indexed from the oldest) by 2^i and divides
the weighted sum by the sum of weights (2^n - 1), taking the floor;
consequently, whenever the consecutive gaps of the sorted history are all
equal to d, the predicted day-count is exactly d. -/
theorem weighted_interval_weights_and_uniform_gaps :
    (∀ g : List Int, Predictor.weightedSum g =
        ∑ i ∈ Finset.range g.length, g.getD i 0 * 2 ^ i) ∧
    (∀ g : List Int, Predictor.totalWeight g = 2 ^ g.length - 1) ∧
    (∀ (ts : List Int) (d : Int) (n : Nat),
        2 ≤ ts.length →
        Predictor.dayGaps (Predictor.sortTimestamps ts) = List.replicate (n + 1) d →
        Predictor.calculate_weighted_average ts = d) := by
  refine ⟨?_, ?_, ?_⟩
  · intro g
    induction g with
    | nil => simp [Predictor.weightedSum]
    | cons a rest ih =>
      rw [Predictor.weightedSum, ih, List.length_cons, Finset.sum_range_succ']
      simp only [List.getD_cons_succ, List.getD_cons_zero, pow_zero, mul_one, pow_succ]
      rw [Finset.mul_sum, add_comm]
      congr 1
      refine Finset.sum_congr rfl fun i _ => by ring
  · intro g
    induction g with
    | nil => simp [Predictor.totalWeight]
    | cons a rest ih =>
      rw [Predictor.totalWeight, ih, List.length_cons, pow_succ]
      ring
  · intro ts d n hlen hgaps
    have hne : Predictor.totalWeight (List.replicate (n + 1) d) ≠ 0 := by
      have h0 := totalWeight_nonneg (List.replicate n d)
      rw [List.replicate_succ, Predictor.totalWeight]
      omega
    unfold Predictor.calculate_weighted_average
    rw [if_neg (by omega)]
    simp only [hgaps, List.replicate_succ, List.isEmpty_cons, Bool.false_eq_true,
      if_false, ← List.replicate_succ]
    rw [weightedSum_replicate]
    exact Int.mul_fdiv_cancel d hne

/-- Witness for C9 at the spec's example: eleven promotions with uniform
10-day gaps predict exactly 10 days. -/
theorem weighted_interval_uniform_gaps_witness :
    Predictor.calculate_weighted_average uniformPromotions = 10 :=
  weighted_interval_weights_and_uniform_gaps.2.2 uniformPromotions 10 9
    (by decide) (by decide)
